import Mathlib

/-!
Shallow embedding of the fleet daemon core
(`pkg/fleet/daemon/daemon.go` of the datadog-agent repository).

The daemon orchestrates package installs and experiments driven by local
API calls and a remote request queue.  Mutating installer calls, installer
state queries, refresh invocations and state publications are recorded in
an explicit event trace so that theorems can speak about which side
effects an operation performs and in which order.

Installer errors are modelled as their message strings; `none` means a
call succeeded, `some e` that it failed with message `e`.
-/

namespace FleetDaemon

/-- Per-package installed state as reported by the installer
(`repository.State`: stable version, experiment version). -/
structure PkgState where
  stable : String
  experiment : String
deriving Repr, DecidableEq

/-- Modelled from the spec: a resolved artifact descriptor — name, version,
target OS, target architecture, download URL (the `Package` type is declared
outside `daemon.go`). -/
structure Package where
  name : String
  version : String
  os : String
  arch : String
  url : String
deriving Repr, DecidableEq

/-- The build architecture constant (`runtime.GOARCH`). -/
def GOARCH : String := "amd64"

/-- The build OS constant (`runtime.GOOS`). -/
def GOOS : String := "linux"

/-- Modelled from the spec: the catalog is a snapshot mapping package
identity (name+version+OS+arch) to a `Package` (the `catalog` type is
declared outside `daemon.go`). -/
structure Catalog where
  packages : List Package
deriving Repr, DecidableEq

/-- Modelled from the spec: `resolve(name, version, os, arch) -> (Package,
found)` — a pure lookup with no error beyond not-found.  Argument order
follows the call sites in `daemon.go`: `getPackage(pkg, version, GOARCH,
GOOS)`. -/
def Catalog.getPackage (c : Catalog) (pkg version arch os : String) : Option Package :=
  c.packages.find? fun p =>
    p.name == pkg && p.version == version && p.arch == arch && p.os == os

/-- Structured installer error with a numeric code and a message
(`installerErrors.InstallerError`). -/
structure InstallerError where
  code : Nat
  message : String
deriving Repr, DecidableEq

/-- Modelled from the spec: `installerErrors.From` translates an arbitrary
failure into a structured error (code + message); failures that carry no
specific code get the generic code `0`. -/
def InstallerError.fromMessage (e : String) : InstallerError :=
  { code := 0, message := e }

/-- Task lifecycle status (`pbgo.TaskState`). -/
inductive TaskState
  | running
  | invalidState
  | done
  | error
deriving Repr, DecidableEq

/-- Request-scoped bookkeeping carried through the request context
(`requestState` in `daemon.go`). -/
structure RequestState where
  pkg : String
  id : String
  state : TaskState
  err : Option InstallerError
deriving Repr, DecidableEq

/-- Modelled from the spec: the remote request method — StartExperiment,
StopExperiment or PromoteExperiment; any other method name is unknown
(the method constants are declared outside `daemon.go`). -/
inductive Method
  | startExperiment
  | stopExperiment
  | promoteExperiment
  | other (name : String)
deriving Repr, DecidableEq

/-- Modelled from the spec: the opaque method-specific parameter payload of
a remote request; for StartExperiment it either decodes to a target version
or fails to decode. -/
inductive ParamsPayload
  | malformed (msg : String)
  | withVersion (version : String)
deriving Repr, DecidableEq

/-- Decoding of `taskWithVersionParams` from the opaque payload
(`json.Unmarshal` at the StartExperiment dispatch site). -/
def decodeTaskWithVersionParams : ParamsPayload → Except String String
  | ParamsPayload.malformed m => Except.error m
  | ParamsPayload.withVersion v => Except.ok v

/-- Modelled from the spec: a remote API request — unique ID, target
package, method, opaque parameters and an expected-state precondition
(the `remoteAPIRequest` type is declared outside `daemon.go`; trace
correlation fields are omitted as they only feed the tracer). -/
structure RemoteAPIRequest where
  id : String
  pkg : String
  method : Method
  params : ParamsPayload
  expectedState : PkgState
deriving Repr, DecidableEq

/-- The installer backend interface consumed by the daemon
(`installer.Installer`), restricted to the methods `daemon.go` uses on the
request paths.  Each mutating method returns `none` on success or the
error message on failure; `state`/`states` are the query methods. -/
structure Installer where
  state : String → Except String PkgState
  states : Except String (List (String × PkgState))
  install : String → Option String
  installExperiment : String → Option String
  removeExperiment : String → Option String
  promoteExperiment : String → Option String

/-- One of the four mutating installer methods, with its argument. -/
inductive MutCall
  | install (url : String)
  | installExperiment (url : String)
  | removeExperiment (pkg : String)
  | promoteExperiment (pkg : String)
deriving Repr, DecidableEq

/-- Task block attached to a published package state
(`pbgo.PackageStateTask`). -/
structure TaskReport where
  id : String
  state : TaskState
  taskError : Option InstallerError
deriving Repr, DecidableEq

/-- One published per-package state (`pbgo.PackageState`). -/
structure PkgReport where
  pkg : String
  stableVersion : String
  experimentVersion : String
  task : Option TaskReport
deriving Repr, DecidableEq

/-- Observable side effects of daemon operations, in order. -/
inductive Event
  | refreshCall
  | publish (reports : List PkgReport)
  | stateQuery (pkg : String)
  | installerCall (c : MutCall)
deriving Repr, DecidableEq

/-- The mutating installer calls occurring in a trace, in order. -/
def mutCalls (ev : List Event) : List MutCall :=
  ev.filterMap fun e =>
    match e with
    | Event.installerCall c => some c
    | _ => none

/-- The daemon's mutable state (`daemonImpl`): installer handle, catalog,
remote-updates flag, pending request queue contents and whether the stop
channel is closed. -/
structure Daemon where
  installer : Installer
  catalog : Catalog
  remoteUpdates : Bool
  requests : List RemoteAPIRequest
  stopChanClosed : Bool

/-- The per-package reports built by `refreshState` from the installer
state map; the package of the active request context (if any) carries the
task block. -/
def buildReports (st : List (String × PkgState)) (req : Option RequestState) :
    List PkgReport :=
  st.map fun e =>
    { pkg := e.1
      stableVersion := e.2.stable
      experimentVersion := e.2.experiment
      task :=
        match req with
        | some r =>
          if e.1 = r.pkg then
            some { id := r.id, state := r.state, taskError := r.err }
          else none
        | none => none }

/-- The events produced by one invocation of `refreshState`: the
invocation itself, then — only when the installer state query succeeds —
one publication of the built reports (`d.rc.SetState`). -/
def refreshEvents (inst : Installer) (req : Option RequestState) : List Event :=
  match inst.states with
  | Except.error _ => [Event.refreshCall]
  | Except.ok st => [Event.refreshCall, Event.publish (buildReports st req)]

/-- `refreshState` (daemon.go:360-392): queries the installer for the full
state map; on failure the error is logged and the refresh is skipped —
nothing is published, nothing is modified, no error is returned. -/
def Daemon.refreshState (d : Daemon) (req : Option RequestState) :
    Daemon × List Event :=
  (d, refreshEvents d.installer req)

/-- Result of one internal daemon operation: daemon state after the
operation, returned error (if any) and the event trace. -/
structure OpResult where
  daemon : Daemon
  err : Option String
  events : List Event

/-- `install` (daemon.go:173-186): refresh, call the installer's
`Install`, wrap its error, refresh again (deferred). -/
def Daemon.install (d : Daemon) (req : Option RequestState) (url : String) :
    OpResult :=
  let before := refreshEvents d.installer req
  let callErr := d.installer.install url
  let res := callErr.map fun e => "could not install: " ++ e
  let after := refreshEvents d.installer req
  { daemon := d, err := res
    events := before ++ [Event.installerCall (MutCall.install url)] ++ after }

/-- `startExperiment` (daemon.go:195-208): refresh, call the installer's
`InstallExperiment`, wrap its error, refresh again (deferred). -/
def Daemon.startExperiment (d : Daemon) (req : Option RequestState) (url : String) :
    OpResult :=
  let before := refreshEvents d.installer req
  let callErr := d.installer.installExperiment url
  let res := callErr.map fun e => "could not install experiment: " ++ e
  let after := refreshEvents d.installer req
  { daemon := d, err := res
    events := before ++ [Event.installerCall (MutCall.installExperiment url)] ++ after }

/-- `promoteExperiment` (daemon.go:217-230): refresh, call the installer's
`PromoteExperiment`, wrap its error, refresh again (deferred). -/
def Daemon.promoteExperiment (d : Daemon) (req : Option RequestState) (pkg : String) :
    OpResult :=
  let before := refreshEvents d.installer req
  let callErr := d.installer.promoteExperiment pkg
  let res := callErr.map fun e => "could not promote experiment: " ++ e
  let after := refreshEvents d.installer req
  { daemon := d, err := res
    events := before ++ [Event.installerCall (MutCall.promoteExperiment pkg)] ++ after }

/-- `stopExperiment` (daemon.go:239-252): refresh, call the installer's
`RemoveExperiment`, wrap its error, refresh again (deferred). -/
def Daemon.stopExperiment (d : Daemon) (req : Option RequestState) (pkg : String) :
    OpResult :=
  let before := refreshEvents d.installer req
  let callErr := d.installer.removeExperiment pkg
  let res := callErr.map fun e => "could not stop experiment: " ++ e
  let after := refreshEvents d.installer req
  { daemon := d, err := res
    events := before ++ [Event.installerCall (MutCall.removeExperiment pkg)] ++ after }

/-- Public `Install` (daemon.go:167-171): takes the lock and delegates to
`install` with no request context. -/
def Daemon.installAPI (d : Daemon) (url : String) : OpResult :=
  d.install none url

/-- Public `StartExperiment` (daemon.go:189-193). -/
def Daemon.startExperimentAPI (d : Daemon) (url : String) : OpResult :=
  d.startExperiment none url

/-- Public `PromoteExperiment` (daemon.go:211-215). -/
def Daemon.promoteExperimentAPI (d : Daemon) (pkg : String) : OpResult :=
  d.promoteExperiment none pkg

/-- Public `StopExperiment` (daemon.go:233-237). -/
def Daemon.stopExperimentAPI (d : Daemon) (pkg : String) : OpResult :=
  d.stopExperiment none pkg

/-- `GetPackage` (daemon.go:113-122): catalog lookup for the current OS
and architecture; error exactly when the lookup reports not-found. -/
def Daemon.getPackageAPI (d : Daemon) (pkg version : String) :
    Daemon × Except String Package :=
  match d.catalog.getPackage pkg version GOARCH GOOS with
  | some p => (d, Except.ok p)
  | none =>
    (d, Except.error
      ("could not get package " ++ pkg ++ ", " ++ version ++ " for "
        ++ GOARCH ++ ", " ++ GOOS))

/-- `handleCatalogUpdate` (daemon.go:254-260): replaces the catalog
wholesale and returns nil. -/
def Daemon.handleCatalogUpdate (d : Daemon) (c : Catalog) :
    Daemon × Option String :=
  ({ d with catalog := c }, none)

/-- `setRequestInvalid` (daemon.go:346-349). -/
def setRequestInvalid (r : RequestState) : RequestState :=
  { r with state := TaskState.invalidState }

/-- `setRequestDone` (daemon.go:351-358): DONE on success; ERROR with the
translated structured error on failure. -/
def setRequestDone (r : RequestState) (err : Option String) : RequestState :=
  match err with
  | none => { r with state := TaskState.done }
  | some e =>
    { r with state := TaskState.error
             err := some (InstallerError.fromMessage e) }

/-- The method dispatch switch of `handleRemoteAPIRequest`
(daemon.go:289-310): decode parameters and resolve the catalog for
StartExperiment, delegate to the matching internal operation, reject
unknown methods. -/
def Daemon.handleRequestMethod (d : Daemon) (req : RequestState)
    (request : RemoteAPIRequest) : Option String × List Event :=
  match request.method with
  | Method.startExperiment =>
    match decodeTaskWithVersionParams request.params with
    | Except.error e =>
      (some ("could not unmarshal start experiment params: " ++ e), [])
    | Except.ok version =>
      match d.catalog.getPackage request.pkg version GOARCH GOOS with
      | none =>
        (some ("could not get package " ++ request.pkg ++ ", " ++ version
          ++ " for " ++ GOARCH ++ ", " ++ GOOS), [])
      | some p =>
        let r := d.startExperiment (some req) p.url
        (r.err, r.events)
  | Method.stopExperiment =>
    let r := d.stopExperiment (some req) request.pkg
    (r.err, r.events)
  | Method.promoteExperiment =>
    let r := d.promoteExperiment (some req) request.pkg
    (r.err, r.events)
  | Method.other m => (some ("unknown method: " ++ m), [])

/-- Result of handling one remote request: daemon state, returned error,
final request state and event trace. -/
structure HandleResult where
  daemon : Daemon
  err : Option String
  reqState : RequestState
  events : List Event

/-- `handleRemoteAPIRequest` (daemon.go:268-311).  The request context
starts RUNNING; refresh happens on entry (line 274) and — deferred — on
exit (line 275), the latter after the deferred `setRequestDone` (line
287) in the dispatch path, so the final refresh observes the terminal
status.  A state-query failure returns the wrapped error with the status
still RUNNING; an expected-state mismatch marks the request
INVALID_STATE, refreshes (line 284) and returns nil; otherwise the method
dispatch runs and the deferred `setRequestDone` records DONE or ERROR. -/
def Daemon.handleRemoteAPIRequest (d : Daemon) (request : RemoteAPIRequest) :
    HandleResult :=
  let r0 : RequestState :=
    { pkg := request.pkg, id := request.id
      state := TaskState.running, err := none }
  let before := refreshEvents d.installer (some r0)
  match d.installer.state request.pkg with
  | Except.error e =>
    { daemon := d, err := some ("could not get installer state: " ++ e)
      reqState := r0
      events := before ++ [Event.stateQuery request.pkg]
        ++ refreshEvents d.installer (some r0) }
  | Except.ok s =>
    if s.stable ≠ request.expectedState.stable
        ∨ s.experiment ≠ request.expectedState.experiment then
      let r1 := setRequestInvalid r0
      { daemon := d, err := none, reqState := r1
        events := before ++ [Event.stateQuery request.pkg]
          ++ refreshEvents d.installer (some r1)
          ++ refreshEvents d.installer (some r1) }
    else
      let inner := d.handleRequestMethod r0 request
      let r1 := setRequestDone r0 inner.1
      { daemon := d, err := inner.1, reqState := r1
        events := before ++ [Event.stateQuery request.pkg] ++ inner.2
          ++ refreshEvents d.installer (some r1) }

/-- The request branch of the dispatch loop (daemon.go:140-144): each
dequeued request is handled; a handler error is logged, never fatal, and
the loop continues with the next request. -/
def Daemon.runRequests : Daemon → List RemoteAPIRequest →
    List (Option String × RequestState × List Event)
  | _, [] => []
  | d, r :: rest =>
    let h := d.handleRemoteAPIRequest r
    (h.err, h.reqState, h.events) :: Daemon.runRequests h.daemon rest

end FleetDaemon

namespace FleetDaemon

/-! ### Helper lemmas and concrete fixtures -/

theorem mutCalls_append (a b : List Event) :
    mutCalls (a ++ b) = mutCalls a ++ mutCalls b :=
  List.filterMap_append a b _

theorem mutCalls_refreshEvents (inst : Installer) (req : Option RequestState) :
    mutCalls (refreshEvents inst req) = [] := by
  cases h : inst.states <;> simp [refreshEvents, h, mutCalls]

/-- A fixture installer on which every call succeeds; the single package
is at stable "1.0" with experiment "2.0". -/
def okInstaller : Installer :=
  { state := fun _ => Except.ok { stable := "1.0", experiment := "2.0" }
    states := Except.ok [("datadog-agent", { stable := "1.0", experiment := "2.0" })]
    install := fun _ => none
    installExperiment := fun _ => none
    removeExperiment := fun _ => none
    promoteExperiment := fun _ => none }

/-- A fixture installer on which every call fails with message "boom". -/
def failInstaller : Installer :=
  { state := fun _ => Except.error "boom"
    states := Except.error "boom"
    install := fun _ => some "boom"
    installExperiment := fun _ => some "boom"
    removeExperiment := fun _ => some "boom"
    promoteExperiment := fun _ => some "boom" }

/-- A fixture catalog entry for the current OS and architecture. -/
def samplePackage : Package :=
  { name := "datadog-agent", version := "2.0", os := GOOS, arch := GOARCH
    url := "oci://registry/agent:2.0" }

def sampleCatalog : Catalog := { packages := [samplePackage] }

/-- Fixture daemon whose installer always succeeds. -/
def okDaemon : Daemon :=
  { installer := okInstaller, catalog := sampleCatalog, remoteUpdates := true
    requests := [], stopChanClosed := false }

/-- Fixture daemon whose installer always fails. -/
def failDaemon : Daemon :=
  { installer := failInstaller, catalog := sampleCatalog, remoteUpdates := true
    requests := [], stopChanClosed := false }

/-! ### Claim theorems -/

/-- C5: if the installer state query fails, `refreshState` returns with the
daemon unchanged and publishes nothing — its whole trace is the bare
invocation, with no `publish` event — and, its return type carrying no
error, the failure is not propagated to the caller. -/
theorem c5_refresh_skips_on_query_failure (d : Daemon) (req : Option RequestState)
    (e : String) (h : d.installer.states = Except.error e) :
    d.refreshState req = (d, [Event.refreshCall]) := by
  simp [Daemon.refreshState, refreshEvents, h]

/-- Witness for C5: the fixture daemon whose installer fails its state
query performs no publication. -/
theorem c5_refresh_skips_on_query_failure_witness :
    failDaemon.refreshState none = (failDaemon, [Event.refreshCall]) :=
  c5_refresh_skips_on_query_failure failDaemon none "boom" rfl

/-- C6: `handleCatalogUpdate` replaces the catalog wholesale with the new
value, always returns nil, and leaves the installer handle, the request
queue, the stop channel and the remote-updates flag unchanged. -/
theorem c6_catalog_update_wholesale_frame (d : Daemon) (c : Catalog) :
    (d.handleCatalogUpdate c).1.catalog = c ∧
    (d.handleCatalogUpdate c).2 = none ∧
    (d.handleCatalogUpdate c).1.installer = d.installer ∧
    (d.handleCatalogUpdate c).1.requests = d.requests ∧
    (d.handleCatalogUpdate c).1.stopChanClosed = d.stopChanClosed ∧
    (d.handleCatalogUpdate c).1.remoteUpdates = d.remoteUpdates :=
  ⟨rfl, rfl, rfl, rfl, rfl, rfl⟩

/-- C7: `GetPackage` is a pure lookup — the daemon is unchanged, a
successful catalog lookup for the current OS and architecture is returned
as-is, and an error is returned exactly when the lookup reports
not-found. -/
theorem c7_get_package_pure_lookup (d : Daemon) (pkg version : String) :
    (d.getPackageAPI pkg version).1 = d ∧
    (∀ p, d.catalog.getPackage pkg version GOARCH GOOS = some p →
      (d.getPackageAPI pkg version).2 = Except.ok p) ∧
    (d.catalog.getPackage pkg version GOARCH GOOS = none →
      ∃ msg, (d.getPackageAPI pkg version).2 = Except.error msg) := by
  refine ⟨?_, ?_, ?_⟩
  · unfold Daemon.getPackageAPI
    cases d.catalog.getPackage pkg version GOARCH GOOS <;> rfl
  · intro p hp
    unfold Daemon.getPackageAPI
    rw [hp]
  · intro hn
    unfold Daemon.getPackageAPI
    rw [hn]
    exact ⟨_, rfl⟩

/-- Witness for C7: on the fixture catalog the present version is found
and an absent version yields a not-found error. -/
theorem c7_get_package_pure_lookup_witness :
    (okDaemon.getPackageAPI "datadog-agent" "2.0").2 = Except.ok samplePackage ∧
    (∃ msg, (okDaemon.getPackageAPI "datadog-agent" "9.9").2 = Except.error msg) :=
  ⟨(c7_get_package_pure_lookup okDaemon "datadog-agent" "2.0").2.1 samplePackage
      (by decide),
   (c7_get_package_pure_lookup okDaemon "datadog-agent" "9.9").2.2 (by decide)⟩

/-- C9: the local `Install` performs no expected-state precondition check —
for every daemon state it invokes the installer's `Install` with the given
URL exactly once — leaves the daemon unchanged, and returns nil exactly
when the installer succeeds, else the installer error wrapped with a
descriptive prefix. -/
theorem c9_install_unconditional (d : Daemon) (url : String) :
    (d.installAPI url).daemon = d ∧
    mutCalls (d.installAPI url).events = [MutCall.install url] ∧
    (d.installAPI url).err
      = Option.map (fun e => "could not install: " ++ e) (d.installer.install url) := by
  refine ⟨rfl, ?_, rfl⟩
  show mutCalls (refreshEvents d.installer none
    ++ [Event.installerCall (MutCall.install url)]
    ++ refreshEvents d.installer none) = [MutCall.install url]
  rw [mutCalls_append, mutCalls_append, mutCalls_refreshEvents]
  rfl

end FleetDaemon

namespace FleetDaemon

theorem mutCalls_stateQuery (p : String) : mutCalls [Event.stateQuery p] = [] := rfl

theorem mutCalls_nil : mutCalls [] = [] := rfl

theorem mutCalls_cons_refreshCall (l : List Event) :
    mutCalls (Event.refreshCall :: l) = mutCalls l := rfl

theorem mutCalls_cons_publish (r : List PkgReport) (l : List Event) :
    mutCalls (Event.publish r :: l) = mutCalls l := rfl

theorem mutCalls_cons_stateQuery (p : String) (l : List Event) :
    mutCalls (Event.stateQuery p :: l) = mutCalls l := rfl

theorem mutCalls_cons_installerCall (c : MutCall) (l : List Event) :
    mutCalls (Event.installerCall c :: l) = c :: mutCalls l := rfl

theorem string_append_ne_empty (a b : String) (ha : a ≠ "") : a ++ b ≠ "" := by
  intro h
  apply ha
  cases a with
  | mk da =>
    cases b with
    | mk db =>
      have hd : da ++ db = [] := congrArg String.data h
      have h1 : da = [] := (List.append_eq_nil.mp hd).1
      rw [h1]

/-- The initial request context built on entry of `handleRemoteAPIRequest`
(daemon.go:326-330): RUNNING, no error. -/
def initialRequestState (request : RemoteAPIRequest) : RequestState :=
  { pkg := request.pkg, id := request.id
    state := TaskState.running, err := none }

/-- Branch equation: when the installer state query fails, the request
handler returns the wrapped error with the request still RUNNING. -/
theorem handle_queryfail_eq (d : Daemon) (request : RemoteAPIRequest) (e : String)
    (hs : d.installer.state request.pkg = Except.error e) :
    d.handleRemoteAPIRequest request =
      { daemon := d
        err := some ("could not get installer state: " ++ e)
        reqState := initialRequestState request
        events := refreshEvents d.installer (some (initialRequestState request))
          ++ [Event.stateQuery request.pkg]
          ++ refreshEvents d.installer (some (initialRequestState request)) } := by
  simp only [Daemon.handleRemoteAPIRequest, hs, initialRequestState]

/-- Branch equation: on an expected-state mismatch the handler marks the
request INVALID_STATE, refreshes twice more and returns nil. -/
theorem handle_mismatch_eq (d : Daemon) (request : RemoteAPIRequest) (s : PkgState)
    (hs : d.installer.state request.pkg = Except.ok s)
    (hmis : s.stable ≠ request.expectedState.stable
      ∨ s.experiment ≠ request.expectedState.experiment) :
    d.handleRemoteAPIRequest request =
      { daemon := d
        err := none
        reqState := setRequestInvalid (initialRequestState request)
        events := refreshEvents d.installer (some (initialRequestState request))
          ++ [Event.stateQuery request.pkg]
          ++ refreshEvents d.installer (some (setRequestInvalid (initialRequestState request)))
          ++ refreshEvents d.installer (some (setRequestInvalid (initialRequestState request))) } := by
  simp only [Daemon.handleRemoteAPIRequest, hs, initialRequestState]
  rw [if_pos hmis]

/-- Branch equation: on an expected-state match the handler dispatches on
the method and records the terminal status via `setRequestDone`. -/
theorem handle_match_eq (d : Daemon) (request : RemoteAPIRequest) (s : PkgState)
    (hs : d.installer.state request.pkg = Except.ok s)
    (h1 : s.stable = request.expectedState.stable)
    (h2 : s.experiment = request.expectedState.experiment) :
    d.handleRemoteAPIRequest request =
      { daemon := d
        err := (d.handleRequestMethod (initialRequestState request) request).1
        reqState := setRequestDone (initialRequestState request)
          (d.handleRequestMethod (initialRequestState request) request).1
        events := refreshEvents d.installer (some (initialRequestState request))
          ++ [Event.stateQuery request.pkg]
          ++ (d.handleRequestMethod (initialRequestState request) request).2
          ++ refreshEvents d.installer
            (some (setRequestDone (initialRequestState request)
              (d.handleRequestMethod (initialRequestState request) request).1)) } := by
  simp only [Daemon.handleRemoteAPIRequest, hs, initialRequestState]
  rw [if_neg (by simp [h1, h2])]

/-- C1: when the installer-reported state for the request's package
differs from the request's expected state (stable or experiment version),
no mutating installer method is invoked, the request's terminal status is
INVALID_STATE, no error is returned and the daemon is unchanged. -/
theorem c1_mismatch_drops_request (d : Daemon) (request : RemoteAPIRequest)
    (s : PkgState)
    (hs : d.installer.state request.pkg = Except.ok s)
    (hmis : s.stable ≠ request.expectedState.stable
      ∨ s.experiment ≠ request.expectedState.experiment) :
    mutCalls (d.handleRemoteAPIRequest request).events = [] ∧
    (d.handleRemoteAPIRequest request).err = none ∧
    (d.handleRemoteAPIRequest request).reqState.state = TaskState.invalidState ∧
    (d.handleRemoteAPIRequest request).daemon = d := by
  rw [handle_mismatch_eq d request s hs hmis]
  refine ⟨?_, rfl, rfl, rfl⟩
  simp [mutCalls_append, mutCalls_refreshEvents, mutCalls_nil,
    mutCalls_cons_refreshCall, mutCalls_cons_publish, mutCalls_cons_stateQuery,
    mutCalls_cons_installerCall]

/-- A fixture request whose expected state (stable "9.9") does not match
the fixture installer state (stable "1.0", experiment "2.0"). -/
def mismatchRequest : RemoteAPIRequest :=
  { id := "req-mismatch", pkg := "datadog-agent"
    method := Method.stopExperiment
    params := ParamsPayload.withVersion "2.0"
    expectedState := { stable := "9.9", experiment := "2.0" } }

/-- Witness for C1: the mismatching fixture request is dropped without
side effect. -/
theorem c1_mismatch_drops_request_witness :
    mutCalls (okDaemon.handleRemoteAPIRequest mismatchRequest).events = [] ∧
    (okDaemon.handleRemoteAPIRequest mismatchRequest).err = none ∧
    (okDaemon.handleRemoteAPIRequest mismatchRequest).reqState.state
      = TaskState.invalidState ∧
    (okDaemon.handleRemoteAPIRequest mismatchRequest).daemon = okDaemon :=
  c1_mismatch_drops_request okDaemon mismatchRequest
    { stable := "1.0", experiment := "2.0" } rfl (Or.inl (by decide))

end FleetDaemon

namespace FleetDaemon

/-- The unique mutating installer call the dispatch switch would issue for
a request: `RemoveExperiment` for StopExperiment, `PromoteExperiment` for
PromoteExperiment, and `InstallExperiment` on the resolved catalog URL for
StartExperiment; `none` when dispatch issues no call (unknown method,
undecodable parameters, or package absent from the catalog). -/
def requestCall (d : Daemon) (request : RemoteAPIRequest) : Option MutCall :=
  match request.method with
  | Method.startExperiment =>
    match decodeTaskWithVersionParams request.params with
    | Except.error _ => none
    | Except.ok version =>
      (d.catalog.getPackage request.pkg version GOARCH GOOS).map
        fun p => MutCall.installExperiment p.url
  | Method.stopExperiment => some (MutCall.removeExperiment request.pkg)
  | Method.promoteExperiment => some (MutCall.promoteExperiment request.pkg)
  | Method.other _ => none

/-- The installer's verdict on one mutating call. -/
def callOutcome (inst : Installer) : MutCall → Option String
  | MutCall.install u => inst.install u
  | MutCall.installExperiment u => inst.installExperiment u
  | MutCall.removeExperiment p => inst.removeExperiment p
  | MutCall.promoteExperiment p => inst.promoteExperiment p

/-- The descriptive prefix each operation wraps its installer error with. -/
def wrapPrefix : MutCall → String
  | MutCall.install _ => "could not install: "
  | MutCall.installExperiment _ => "could not install experiment: "
  | MutCall.removeExperiment _ => "could not stop experiment: "
  | MutCall.promoteExperiment _ => "could not promote experiment: "

/-- When dispatch issues a mutating call, `handleRequestMethod` performs
exactly that call between two refreshes and returns the wrapped outcome. -/
theorem handleRequestMethod_eq_of_call (d : Daemon) (r : RequestState)
    (request : RemoteAPIRequest) (c : MutCall)
    (hc : requestCall d request = some c) :
    d.handleRequestMethod r request =
      ((callOutcome d.installer c).map (fun e => wrapPrefix c ++ e),
        refreshEvents d.installer (some r)
          ++ [Event.installerCall c]
          ++ refreshEvents d.installer (some r)) := by
  cases hm : request.method with
  | startExperiment =>
    cases hp : decodeTaskWithVersionParams request.params with
    | error e => simp [requestCall, hm, hp] at hc
    | ok v =>
      cases hq : d.catalog.getPackage request.pkg v GOARCH GOOS with
      | none => simp [requestCall, hm, hp, hq] at hc
      | some p =>
        have hcc : c = MutCall.installExperiment p.url := by
          simp [requestCall, hm, hp, hq] at hc
          exact hc.symm
        subst hcc
        simp [Daemon.handleRequestMethod, hm, hp, hq, Daemon.startExperiment,
          callOutcome, wrapPrefix]
  | stopExperiment =>
    have hcc : c = MutCall.removeExperiment request.pkg := by
      simp [requestCall, hm] at hc
      exact hc.symm
    subst hcc
    simp [Daemon.handleRequestMethod, hm, Daemon.stopExperiment,
      callOutcome, wrapPrefix]
  | promoteExperiment =>
    have hcc : c = MutCall.promoteExperiment request.pkg := by
      simp [requestCall, hm] at hc
      exact hc.symm
    subst hcc
    simp [Daemon.handleRequestMethod, hm, Daemon.promoteExperiment,
      callOutcome, wrapPrefix]
  | other m => simp [requestCall, hm] at hc

/-- C2 (amended): for a remote request whose expected state matches the
installer-reported state and for which dispatch resolves a mutating call —
always the case for StopExperiment and PromoteExperiment, and for
StartExperiment whenever the parameters decode and the catalog holds the
package — exactly that one installer call is invoked, the request ends
DONE exactly when the call succeeds, and on failure it ends ERROR with a
populated structured installer error. -/
theorem c2_matching_request_forwarded_once (d : Daemon) (request : RemoteAPIRequest)
    (s : PkgState) (c : MutCall)
    (hs : d.installer.state request.pkg = Except.ok s)
    (h1 : s.stable = request.expectedState.stable)
    (h2 : s.experiment = request.expectedState.experiment)
    (hc : requestCall d request = some c) :
    mutCalls (d.handleRemoteAPIRequest request).events = [c] ∧
    ((d.handleRemoteAPIRequest request).err = none ↔ callOutcome d.installer c = none) ∧
    (callOutcome d.installer c = none →
      (d.handleRemoteAPIRequest request).reqState.state = TaskState.done) ∧
    (∀ e, callOutcome d.installer c = some e →
      (d.handleRemoteAPIRequest request).reqState.state = TaskState.error ∧
      ∃ ie, (d.handleRemoteAPIRequest request).reqState.err = some ie ∧
        ie.message ≠ "") := by
  rw [handle_match_eq d request s hs h1 h2,
    handleRequestMethod_eq_of_call d (initialRequestState request) request c hc]
  refine ⟨?_, ?_, ?_, ?_⟩
  · simp [mutCalls_append, mutCalls_refreshEvents, mutCalls_nil,
      mutCalls_cons_refreshCall, mutCalls_cons_publish, mutCalls_cons_stateQuery,
      mutCalls_cons_installerCall]
  · cases ho : callOutcome d.installer c <;> simp [ho]
  · intro h0
    simp [h0, setRequestDone]
  · intro e he
    simp only [he, Option.map_some]
    refine ⟨by simp [setRequestDone], InstallerError.fromMessage (wrapPrefix c ++ e),
      by simp [setRequestDone], ?_⟩
    exact string_append_ne_empty (wrapPrefix c) e
      (by cases c <;> simp [wrapPrefix])

/-- A fixture request matching the fixture installer state, asking to stop
the running experiment. -/
def stopRequest : RemoteAPIRequest :=
  { id := "req-stop", pkg := "datadog-agent"
    method := Method.stopExperiment
    params := ParamsPayload.withVersion ""
    expectedState := { stable := "1.0", experiment := "2.0" } }

/-- Witness for C2 (amended): the matching stop request is forwarded as
exactly one `RemoveExperiment` call and ends DONE on the all-success
fixture installer. -/
theorem c2_matching_request_forwarded_once_witness :
    mutCalls (okDaemon.handleRemoteAPIRequest stopRequest).events
      = [MutCall.removeExperiment "datadog-agent"] ∧
    (okDaemon.handleRemoteAPIRequest stopRequest).reqState.state = TaskState.done :=
  have h := c2_matching_request_forwarded_once okDaemon stopRequest
    { stable := "1.0", experiment := "2.0" }
    (MutCall.removeExperiment "datadog-agent") rfl rfl rfl rfl
  ⟨h.1, h.2.2.1 rfl⟩

/-- A fixture StartExperiment request whose expected state matches but
whose parameter payload does not decode. -/
def badParamsRequest : RemoteAPIRequest :=
  { id := "req-bad-params", pkg := "datadog-agent"
    method := Method.startExperiment
    params := ParamsPayload.malformed "unexpected end of JSON input"
    expectedState := { stable := "1.0", experiment := "2.0" } }

/-- Counterexample to C2 as stated: a StartExperiment request whose
expected state matches the installer-reported state but whose parameters
fail to decode invokes no installer call at all (its terminal status is
ERROR), so a matching request is not always forwarded exactly once. -/
theorem c2_as_stated_counterexample :
    okDaemon.installer.state badParamsRequest.pkg
      = Except.ok badParamsRequest.expectedState ∧
    mutCalls (okDaemon.handleRemoteAPIRequest badParamsRequest).events = [] ∧
    (okDaemon.handleRemoteAPIRequest badParamsRequest).reqState.state
      = TaskState.error := by
  refine ⟨rfl, by decide, by decide⟩

end FleetDaemon

namespace FleetDaemon

/-- For a matching StartExperiment request whose parameters fail to decode
or whose package is absent from the catalog, dispatch returns an error
without producing any event. -/
theorem handleRequestMethod_start_failure (d : Daemon) (r : RequestState)
    (request : RemoteAPIRequest)
    (hm : request.method = Method.startExperiment)
    (hc : requestCall d request = none) :
    ∃ msg, d.handleRequestMethod r request = (some msg, []) := by
  cases hp : decodeTaskWithVersionParams request.params with
  | error e =>
    exact ⟨"could not unmarshal start experiment params: " ++ e,
      by simp [Daemon.handleRequestMethod, hm, hp]⟩
  | ok v =>
    cases hq : d.catalog.getPackage request.pkg v GOARCH GOOS with
    | none =>
      exact ⟨"could not get package " ++ request.pkg ++ ", " ++ v ++ " for "
          ++ GOARCH ++ ", " ++ GOOS,
        by simp [Daemon.handleRequestMethod, hm, hp, hq]⟩
    | some p => simp [requestCall, hm, hp, hq] at hc

/-- C10: for a remote StartExperiment request whose expected state matches
the installer-reported state, if the parameters fail to decode or the
requested package/version is absent from the catalog for the current OS
and architecture, no installer call is made (in particular no
`InstallExperiment`) and the terminal status is ERROR carrying a
structured error — not INVALID_STATE. -/
theorem c10_start_resolution_failure_is_error (d : Daemon)
    (request : RemoteAPIRequest) (s : PkgState)
    (hs : d.installer.state request.pkg = Except.ok s)
    (h1 : s.stable = request.expectedState.stable)
    (h2 : s.experiment = request.expectedState.experiment)
    (hm : request.method = Method.startExperiment)
    (hc : requestCall d request = none) :
    mutCalls (d.handleRemoteAPIRequest request).events = [] ∧
    (d.handleRemoteAPIRequest request).reqState.state = TaskState.error ∧
    (∃ ie, (d.handleRemoteAPIRequest request).reqState.err = some ie) ∧
    (d.handleRemoteAPIRequest request).reqState.state ≠ TaskState.invalidState := by
  obtain ⟨msg, hmsg⟩ := handleRequestMethod_start_failure d
    (initialRequestState request) request hm hc
  rw [handle_match_eq d request s hs h1 h2, hmsg]
  refine ⟨?_, by simp [setRequestDone], ⟨InstallerError.fromMessage msg,
    by simp [setRequestDone]⟩, by simp [setRequestDone]⟩
  simp [mutCalls_append, mutCalls_refreshEvents, mutCalls_nil,
    mutCalls_cons_refreshCall, mutCalls_cons_publish, mutCalls_cons_stateQuery,
    mutCalls_cons_installerCall]

/-- Witness for C10: the matching bad-parameters StartExperiment fixture
request performs no installer call and ends ERROR. -/
theorem c10_start_resolution_failure_is_error_witness :
    mutCalls (okDaemon.handleRemoteAPIRequest badParamsRequest).events = [] ∧
    (okDaemon.handleRemoteAPIRequest badParamsRequest).reqState.state
      = TaskState.error :=
  have h := c10_start_resolution_failure_is_error okDaemon badParamsRequest
    { stable := "1.0", experiment := "2.0" } rfl rfl rfl rfl rfl
  ⟨h.1, h.2.1⟩

/-- C8 (amended): a remote request with an unknown method whose state
query succeeds and whose expected state matches the installer-reported
state yields an error naming the unknown method, invokes no mutating
installer call, still reaches a terminal status (ERROR), and the dispatch
loop goes on to process the remaining requests. -/
theorem c8_unknown_method_isolated (d : Daemon) (request : RemoteAPIRequest)
    (s : PkgState) (m : String) (rest : List RemoteAPIRequest)
    (hs : d.installer.state request.pkg = Except.ok s)
    (h1 : s.stable = request.expectedState.stable)
    (h2 : s.experiment = request.expectedState.experiment)
    (hm : request.method = Method.other m) :
    (d.handleRemoteAPIRequest request).err = some ("unknown method: " ++ m) ∧
    mutCalls (d.handleRemoteAPIRequest request).events = [] ∧
    (d.handleRemoteAPIRequest request).reqState.state = TaskState.error ∧
    d.runRequests (request :: rest)
      = ((d.handleRemoteAPIRequest request).err,
          (d.handleRemoteAPIRequest request).reqState,
          (d.handleRemoteAPIRequest request).events)
        :: d.runRequests rest := by
  have hinner : d.handleRequestMethod (initialRequestState request) request
      = (some ("unknown method: " ++ m), []) := by
    simp [Daemon.handleRequestMethod, hm]
  have he := handle_match_eq d request s hs h1 h2
  rw [he, hinner]
  refine ⟨rfl, ?_, by simp [setRequestDone], ?_⟩
  · simp [mutCalls_append, mutCalls_refreshEvents, mutCalls_nil,
      mutCalls_cons_refreshCall, mutCalls_cons_publish, mutCalls_cons_stateQuery,
      mutCalls_cons_installerCall]
  · show Daemon.runRequests d (request :: rest) = _
    rw [Daemon.runRequests, he, hinner]

/-- A fixture request with an unknown method and a matching expected
state. -/
def unknownMethodRequest : RemoteAPIRequest :=
  { id := "req-unknown", pkg := "datadog-agent"
    method := Method.other "RestartExperiment"
    params := ParamsPayload.withVersion ""
    expectedState := { stable := "1.0", experiment := "2.0" } }

/-- Witness for C8 (amended): the unknown-method fixture request errors,
performs no installer call, ends ERROR, and the loop continues. -/
theorem c8_unknown_method_isolated_witness :
    (okDaemon.handleRemoteAPIRequest unknownMethodRequest).err
      = some ("unknown method: " ++ "RestartExperiment") ∧
    mutCalls (okDaemon.handleRemoteAPIRequest unknownMethodRequest).events = [] ∧
    (okDaemon.handleRemoteAPIRequest unknownMethodRequest).reqState.state
      = TaskState.error ∧
    okDaemon.runRequests [unknownMethodRequest]
      = [((okDaemon.handleRemoteAPIRequest unknownMethodRequest).err,
          (okDaemon.handleRemoteAPIRequest unknownMethodRequest).reqState,
          (okDaemon.handleRemoteAPIRequest unknownMethodRequest).events)] :=
  have h := c8_unknown_method_isolated okDaemon unknownMethodRequest
    { stable := "1.0", experiment := "2.0" } "RestartExperiment" []
    rfl rfl rfl rfl
  ⟨h.1, h.2.1, h.2.2.1, h.2.2.2⟩

/-- A fixture request with an unknown method whose expected state does
not match the installer-reported state. -/
def unknownMismatchRequest : RemoteAPIRequest :=
  { id := "req-unknown-mismatch", pkg := "datadog-agent"
    method := Method.other "RestartExperiment"
    params := ParamsPayload.withVersion ""
    expectedState := { stable := "9.9", experiment := "" } }

/-- Counterexample to C8 as stated: an unknown-method request whose
expected state does not match is dropped as INVALID_STATE with a nil
error, so an unknown method does not always produce an error naming the
method. -/
theorem c8_as_stated_counterexample :
    unknownMismatchRequest.method = Method.other "RestartExperiment" ∧
    (okDaemon.handleRemoteAPIRequest unknownMismatchRequest).err = none ∧
    (okDaemon.handleRemoteAPIRequest unknownMismatchRequest).reqState.state
      = TaskState.invalidState := by
  refine ⟨rfl, by decide, by decide⟩

end FleetDaemon

namespace FleetDaemon

/-- A trace in which every mutating installer call happens strictly after
some refresh invocation and strictly before some refresh invocation — and
at least two refresh invocations occur. -/
def refreshBracketed (ev : List Event) : Prop :=
  ∃ l m r, ev = l ++ Event.refreshCall :: (m ++ Event.refreshCall :: r)
    ∧ mutCalls l = [] ∧ mutCalls r = []

theorem refreshEvents_exists_tail (inst : Installer) (req : Option RequestState) :
    ∃ t, refreshEvents inst req = Event.refreshCall :: t ∧ mutCalls t = [] := by
  cases h : inst.states with
  | error e => exact ⟨[], by simp [refreshEvents, h], rfl⟩
  | ok st =>
    exact ⟨[Event.publish (buildReports st req)], by simp [refreshEvents, h], rfl⟩

theorem refreshBracketed_build (ev : List Event) (t1 mid t2 : List Event)
    (h : ev = (Event.refreshCall :: t1) ++ mid ++ (Event.refreshCall :: t2))
    (m2 : mutCalls t2 = []) : refreshBracketed ev := by
  refine ⟨[], t1 ++ mid, t2, ?_, rfl, m2⟩
  rw [h]
  simp

/-- C3: each mutating operation — `install`, `startExperiment`,
`promoteExperiment`, `stopExperiment` (local API or request dispatch) and
each processed remote request — invokes `refreshState` at least once
before any installer call in its trace and at least once after, for every
installer behaviour, including when installer calls fail. -/
theorem c3_refresh_before_and_after (d : Daemon) (req : Option RequestState)
    (url pkg : String) (request : RemoteAPIRequest) :
    refreshBracketed (d.install req url).events ∧
    refreshBracketed (d.startExperiment req url).events ∧
    refreshBracketed (d.promoteExperiment req pkg).events ∧
    refreshBracketed (d.stopExperiment req pkg).events ∧
    refreshBracketed (d.handleRemoteAPIRequest request).events := by
  obtain ⟨t0, e0, m0⟩ := refreshEvents_exists_tail d.installer req
  refine ⟨?_, ?_, ?_, ?_, ?_⟩
  · exact refreshBracketed_build _ t0 [Event.installerCall (MutCall.install url)] t0
      (by show refreshEvents d.installer req ++ _ ++ refreshEvents d.installer req = _
          rw [e0]) m0
  · exact refreshBracketed_build _ t0
      [Event.installerCall (MutCall.installExperiment url)] t0
      (by show refreshEvents d.installer req ++ _ ++ refreshEvents d.installer req = _
          rw [e0]) m0
  · exact refreshBracketed_build _ t0
      [Event.installerCall (MutCall.promoteExperiment pkg)] t0
      (by show refreshEvents d.installer req ++ _ ++ refreshEvents d.installer req = _
          rw [e0]) m0
  · exact refreshBracketed_build _ t0
      [Event.installerCall (MutCall.removeExperiment pkg)] t0
      (by show refreshEvents d.installer req ++ _ ++ refreshEvents d.installer req = _
          rw [e0]) m0
  · cases hs : d.installer.state request.pkg with
    | error e =>
      obtain ⟨ta, ea, ma⟩ := refreshEvents_exists_tail d.installer
        (some (initialRequestState request))
      rw [handle_queryfail_eq d request e hs]
      exact refreshBracketed_build _ ta [Event.stateQuery request.pkg] ta
        (by show refreshEvents _ _ ++ _ ++ refreshEvents _ _ = _
            rw [ea]) ma
    | ok s =>
      by_cases hmis : s.stable ≠ request.expectedState.stable
          ∨ s.experiment ≠ request.expectedState.experiment
      · obtain ⟨ta, ea, ma⟩ := refreshEvents_exists_tail d.installer
          (some (initialRequestState request))
        obtain ⟨tb, eb, mb⟩ := refreshEvents_exists_tail d.installer
          (some (setRequestInvalid (initialRequestState request)))
        rw [handle_mismatch_eq d request s hs hmis]
        exact refreshBracketed_build _ ta
          (Event.stateQuery request.pkg :: refreshEvents d.installer
            (some (setRequestInvalid (initialRequestState request)))) tb
          (by rw [ea, eb]; simp) mb
      · push_neg at hmis
        obtain ⟨ta, ea, ma⟩ := refreshEvents_exists_tail d.installer
          (some (initialRequestState request))
        obtain ⟨tb, eb, mb⟩ := refreshEvents_exists_tail d.installer
          (some (setRequestDone (initialRequestState request)
            (d.handleRequestMethod (initialRequestState request) request).1))
        rw [handle_match_eq d request s hs hmis.1 hmis.2]
        exact refreshBracketed_build _ ta
          (Event.stateQuery request.pkg
            :: (d.handleRequestMethod (initialRequestState request) request).2) tb
          (by rw [ea, eb]; simp) mb

end FleetDaemon

namespace FleetDaemon

/-!
### Shutdown synchronization model (for the Stop / dispatch-loop claim)

A small interleaving semantics of the shutdown protocol between `Stop`
(daemon.go:157-164) and the dispatch loop started by `Start`
(daemon.go:128-147) handling one request (daemon.go:268-271), over the
shared mutex `d.m`, the wait-group counter `d.requestsWG` (incremented by
`scheduleRemoteAPIRequest`, daemon.go:262-266, decremented by the
handler's deferred `Done`), the request channel and the stop channel.
The periodic GC branch of the select is omitted: it only ever acquires
the same mutex, so it adds no transition that could unblock the states
studied here.
-/

/-- Position of the dispatch-loop goroutine. -/
inductive LoopPC
  | select        -- blocked in the select (daemon.go:130)
  | handlerLock   -- dequeued a request, acquiring the mutex (daemon.go:269)
  | handlerBody   -- holding the mutex, running the handler body
  | exited        -- the loop returned via the stop branch (daemon.go:139)
deriving Repr, DecidableEq

/-- Position of the thread calling `Stop`. -/
inductive StopPC
  | acquire   -- about to lock the mutex (daemon.go:158)
  | closing   -- holding the mutex, about to close rc and stopChan (daemon.go:160-161)
  | waiting   -- blocked in requestsWG.Wait() (daemon.go:162)
  | returned  -- Stop returned (deferred unlock, daemon.go:159)
deriving Repr, DecidableEq

/-- Owner of the daemon mutex `d.m`. -/
inductive MutexOwner
  | free
  | loopThread
  | stopThread
deriving Repr, DecidableEq

/-- A configuration of the shutdown protocol. -/
structure StopConfig where
  loopPC : LoopPC
  stopPC : StopPC
  mutex : MutexOwner
  wg : Nat          -- requestsWG counter
  queued : Nat      -- requests sitting in the channel
  stopClosed : Bool -- whether close(d.stopChan) has happened
deriving Repr, DecidableEq

/-- All configurations reachable in one step (the enabled transitions of
the two threads). -/
def stepTargets (c : StopConfig) : List StopConfig :=
  (if c.stopPC = StopPC.acquire ∧ c.mutex = MutexOwner.free then
    [{ c with stopPC := StopPC.closing, mutex := MutexOwner.stopThread }]
  else [])
  ++
  (if c.stopPC = StopPC.closing then
    [{ c with stopPC := StopPC.waiting, stopClosed := true }]
  else [])
  ++
  (if c.stopPC = StopPC.waiting ∧ c.wg = 0 then
    [{ c with stopPC := StopPC.returned, mutex := MutexOwner.free }]
  else [])
  ++
  (if c.loopPC = LoopPC.select ∧ 0 < c.queued then
    [{ c with loopPC := LoopPC.handlerLock, queued := c.queued - 1 }]
  else [])
  ++
  (if c.loopPC = LoopPC.select ∧ c.stopClosed = true then
    [{ c with loopPC := LoopPC.exited }]
  else [])
  ++
  (if c.loopPC = LoopPC.handlerLock ∧ c.mutex = MutexOwner.free then
    [{ c with loopPC := LoopPC.handlerBody, mutex := MutexOwner.loopThread }]
  else [])
  ++
  (if c.loopPC = LoopPC.handlerBody then
    [{ c with loopPC := LoopPC.select, wg := c.wg - 1, mutex := MutexOwner.free }]
  else [])

/-- One interleaving step. -/
def stepRel (a b : StopConfig) : Prop := b ∈ stepTargets a

instance (a b : StopConfig) : Decidable (stepRel a b) :=
  inferInstanceAs (Decidable (b ∈ stepTargets a))

/-- The C4 scenario's initial configuration: one remote request has been
scheduled (`Add(1)` plus the channel send) and not yet dequeued, the loop
sits in its select, and a caller now enters `Stop`. -/
def c4Init : StopConfig :=
  { loopPC := LoopPC.select, stopPC := StopPC.acquire
    mutex := MutexOwner.free, wg := 1, queued := 1, stopClosed := false }

/-- The deadlocked configuration: `Stop` holds the mutex and waits on the
wait group, while the handler of the dequeued request blocks acquiring
the mutex, so the counter can never reach zero. -/
def c4Stuck : StopConfig :=
  { loopPC := LoopPC.handlerLock, stopPC := StopPC.waiting
    mutex := MutexOwner.stopThread, wg := 1, queued := 0, stopClosed := true }

/-- C4 (code defect): from the configuration with one enqueued request, a
legal interleaving reaches a configuration in which `Stop` is waiting on
the wait group while holding the daemon mutex, the request's handler is
blocked on that same mutex, and no transition is enabled at all — the
enqueued request can never reach a terminal status while `Stop` waits,
because the stop path does synchronize through the mutex it holds across
`requestsWG.Wait()`, contrary to the claimed design. -/
theorem c4_stop_holds_mutex_deadlock :
    (∃ c1 c2, stepRel c4Init c1 ∧ stepRel c1 c2 ∧ stepRel c2 c4Stuck) ∧
    stepTargets c4Stuck = [] ∧
    c4Stuck.stopPC = StopPC.waiting ∧
    c4Stuck.wg ≠ 0 := by
  refine ⟨⟨{ loopPC := LoopPC.select, stopPC := StopPC.closing
             mutex := MutexOwner.stopThread, wg := 1, queued := 1
             stopClosed := false },
           { loopPC := LoopPC.select, stopPC := StopPC.waiting
             mutex := MutexOwner.stopThread, wg := 1, queued := 1
             stopClosed := true },
           by decide, by decide, by decide⟩, by decide, rfl, by decide⟩

end FleetDaemon
